import Mathlib

/-!
Shallow embedding of the stem-http repository.

The embedded code is `src/stem_http/tor.py` (class `ProxyMgr`: `__init__`,
`connect_cntrlr`, `start`, `_bump_ports`, `stop`, `__enter__`/`__exit__`)
and `src/stem_http/client.py` (class `TorHttpClient`, method `get`).

External effects (launching the tor subprocess via
`stem.process.launch_tor_with_config`, connecting to the control port via
`stem.control.Controller.from_port` and authenticating) are modelled by
outcome oracles supplied as arguments; the Python state of a `ProxyMgr`
object is an explicit record threaded through the operations.
-/

/-- Classification of the `OSError` raised by `stem.process.launch_tor_with_config`,
by the message signatures tested in tor.py lines 142 and 147:
`bindFail` when `BIND_FAIL_MSG` ("Failed to bind one of the listener ports.")
occurs in the message, `brokenConf` when `BROKEN_CONF_MSG` occurs, and
`other code` for every other OSError (e.g. missing binary, permission denied),
tagged with an arbitrary code so distinct errors stay distinguishable. -/
inductive ErrSig where
  | bindFail
  | brokenConf
  | other (code : Nat)
  deriving DecidableEq

/-- Outcome of one call to `stem.process.launch_tor_with_config` (tor.py line 137):
either the launch succeeds, or it raises an `OSError` with signature `sig`. -/
inductive LaunchOutcome where
  | success
  | oserr (sig : ErrSig)
  deriving DecidableEq

/-- Outcome of one run of `connect_cntrlr` (tor.py lines 96-100).
`refused` : `stem.control.Controller.from_port` raises `stem.SocketError`
(nothing listening), so the assignment to `self.cntrlr` never happens.
`authRejected` : `from_port` succeeds (so `self.cntrlr` is assigned) and then
`authenticate` raises an authentication failure, which is not a `SocketError`.
`ok` : both steps succeed. -/
inductive ConnectOutcome where
  | refused
  | authRejected
  | ok
  deriving DecidableEq

/-- The Python exceptions the embedded code can raise, by origin:
`socketError` = `stem.SocketError`; `runtimeReuse` = `RuntimeError("No existing
Tor proxy to connect to.")` (tor.py line 88); `runtimeConfig` = the config-error
`RuntimeError` (line 148); `runtimeRetries` = `RuntimeError("Max number of
ProxyMgr retries reached!")` (line 153); `osError sig` = the original launch
`OSError` re-raised unchanged (line 155); `authFailure` = a stem authentication
failure; `attributeError` = Python `AttributeError` from calling a method on
`None`; `typeError` = Python `TypeError` from an unsupported operand. -/
inductive PyErr where
  | socketError
  | runtimeReuse
  | runtimeConfig
  | runtimeRetries
  | osError (sig : ErrSig)
  | authFailure
  | attributeError
  | typeError
  deriving DecidableEq

/-- A value in the tor configuration dict built by `start` (tor.py lines
123-134): `ControlPort`/`SocksPort`/`ExitNodes` map to strings, `Log` maps to
a list of strings. -/
inductive ConfVal where
  | str (s : String)
  | list (l : List String)
  deriving DecidableEq

/-- The `stem.control.Controller` object assigned to `self.cntrlr`
(tor.py line 99): the port it was built from, and whether the subsequent
`authenticate` call (line 100) succeeded on it. -/
structure Cntrlr where
  port : Nat
  authed : Bool
  deriving DecidableEq

/-- The attribute state of a `ProxyMgr` object, mirroring the assignments in
`__init__` (tor.py lines 69-81). The `process` field holds the
`subprocess.Popen` handle when a launch succeeded, recorded here as the
configuration dict the process was launched with; `none` mirrors Python
`None`. -/
structure ProxyMgr where
  log_level : String
  tor_log : Option String
  cntrl_passw : Option String
  reuse : Bool
  retry : Bool
  country : Option String
  socks_port : Nat
  cntrl_port : Nat
  process : Option (List (String × ConfVal))
  cntrlr : Option Cntrlr
  deriving DecidableEq

/-- The `tor_conf` dict built in `start` (tor.py lines 123-134). Python dict
insertion order is kept as list order. The guards `if self.tor_log:` and
`if self.country:` are Python truthiness tests, so `None` and the empty
string both skip the key. `"\x7b%s\x7d" % self.country` formats as an opening
brace, the country, and a closing brace. -/
def torConf (s : ProxyMgr) : List (String × ConfVal) :=
  let base := [("ControlPort", ConfVal.str (toString s.cntrl_port)),
               ("SocksPort", ConfVal.str (toString s.socks_port))]
  let withLog :=
    match s.tor_log with
    | some t => if t = "" then base else base ++ [("Log", ConfVal.list [s.log_level ++ " file " ++ t])]
    | none => base
  match s.country with
  | some c => if c = "" then withLog else withLog ++ [("ExitNodes", ConfVal.str ("\x7b" ++ c ++ "\x7d"))]
  | none => withLog

/-- `connect_cntrlr` (tor.py lines 96-100): `self.cntrlr =
Controller.from_port(port=self.cntrl_port)` followed by
`self.cntrlr.authenticate(password=self.cntrl_passw)`. The assignment happens
before authentication, so a rejected authentication still leaves `cntrlr`
assigned. Returns the updated state and the raised exception, if any. -/
def ProxyMgr.connect_cntrlr (s : ProxyMgr) (o : ConnectOutcome) : ProxyMgr × Option PyErr :=
  match o with
  | ConnectOutcome.refused => (s, some PyErr.socketError)
  | ConnectOutcome.authRejected =>
      ({ s with cntrlr := some { port := s.cntrl_port, authed := false } }, some PyErr.authFailure)
  | ConnectOutcome.ok =>
      ({ s with cntrlr := some { port := s.cntrl_port, authed := true } }, none)

/-- `_bump_ports` (tor.py lines 157-159): increment both ports by 2. -/
def ProxyMgr.bump_ports (s : ProxyMgr) : ProxyMgr :=
  { s with socks_port := s.socks_port + 2, cntrl_port := s.cntrl_port + 2 }

/-- Result of a call to `start`: the final object state, the exception raised
(`none` on success), and how many times `launch_tor_with_config` was called. -/
structure StartResult where
  state : ProxyMgr
  error : Option PyErr
  attempts : Nat
  deriving DecidableEq

/-- `start` (tor.py lines 102-155). `env` gives the outcome of the `n`-th call
to `launch_tor_with_config` overall, `attempt` the index of the call this
invocation makes. On success `self.process` is assigned (line 137). On an
`OSError` the elif chain of lines 142-155 runs:
bind failure with `self.retry` and `retries > 0` bumps both ports, decrements
`retries` and recurses; else a broken-config signature raises the config
`RuntimeError`; else `retries == 0` raises the max-retries `RuntimeError`;
else the original error is re-raised. The Python guard `retries > 0` is
realised here by matching on `retries`: when `retries = r + 1` the guard holds
exactly when the signature is `bindFail` and `self.retry` is set, and the
`retries == 0` elif is unreachable; when `retries = 0` the first guard is
false, so only the broken-config test and the `retries == 0` branch remain. -/
def ProxyMgr.start (env : Nat → LaunchOutcome) (attempt : Nat) (s : ProxyMgr) (retries : Nat) :
    StartResult :=
  match env attempt with
  | LaunchOutcome.success =>
      { state := { s with process := some (torConf s) }, error := none, attempts := 1 }
  | LaunchOutcome.oserr sig =>
    match retries with
    | Nat.succ r =>
      if sig = ErrSig.bindFail ∧ s.retry = true then
        let res := ProxyMgr.start env (attempt + 1) s.bump_ports r
        { res with attempts := res.attempts + 1 }
      else if sig = ErrSig.brokenConf then
        { state := s, error := some PyErr.runtimeConfig, attempts := 1 }
      else
        { state := s, error := some (PyErr.osError sig), attempts := 1 }
    | Nat.zero =>
      if sig = ErrSig.brokenConf then
        { state := s, error := some PyErr.runtimeConfig, attempts := 1 }
      else
        { state := s, error := some PyErr.runtimeRetries, attempts := 1 }

/-- `stop` (tor.py lines 161-174): `if not self.reuse: self.process.kill()`.
Returns the state (unchanged: `stop` clears neither `process` nor `cntrlr`),
the number of `kill()` invocations this call performed (0 or 1), and the
exception raised: calling `.kill()` on `None` is a Python `AttributeError`;
`Popen.kill` on a live or already-dead owned process raises nothing. -/
def ProxyMgr.stop (s : ProxyMgr) : ProxyMgr × Nat × Option PyErr :=
  if s.reuse = false then
    match s.process with
    | none => (s, 0, some PyErr.attributeError)
    | some _ => (s, 1, none)
  else
    (s, 0, none)

/-- The constructor parameters of `ProxyMgr.__init__` (tor.py lines 57-68),
with their Python default values. -/
structure InitArgs where
  reuse : Bool := false
  retry : Bool := true
  country : Option String := none
  passw : Option String := none
  socks_port : Nat := 9050
  cntrl_port : Nat := 9051
  exit_on_reuse_fail : Bool := false
  log_file : Option String := some "/tmp/tor_log"
  tor_debug : Bool := false

/-- Oracle for the external effects one construction can perform: the outcome
of the reuse-path `connect_cntrlr` call (tor.py line 85), the outcomes of the
successive `launch_tor_with_config` calls made by `start` (line 137), and the
outcome of the post-start `connect_cntrlr` call (line 94). -/
structure Env where
  reuseConnect : ConnectOutcome
  launches : Nat → LaunchOutcome
  postConnect : ConnectOutcome

/-- The attribute assignments of `__init__` before any control flow
(tor.py lines 69-81): `self.log_level = "DEBUG" if tor_debug else "NOTICE"`,
the plain copies, and `self.process = None`, `self.cntrlr = None`. -/
def initState (a : InitArgs) : ProxyMgr :=
  { log_level := if a.tor_debug then "DEBUG" else "NOTICE",
    tor_log := a.log_file,
    cntrl_passw := a.passw,
    reuse := a.reuse,
    retry := a.retry,
    country := a.country,
    socks_port := a.socks_port,
    cntrl_port := a.cntrl_port,
    process := none,
    cntrlr := none }

/-- `__init__` (tor.py lines 57-94). After the attribute assignments: if
`self.reuse`, try `connect_cntrlr`, catching only `stem.SocketError`; on that
error either raise the reuse `RuntimeError` (when `exit_on_reuse_fail`) or set
`self.reuse = False`; any other exception (an authentication failure)
propagates. Then, if `self.reuse` is now false, run `self.start()` (with its
default `retries=10`) and `connect_cntrlr`. Returns the final attribute state
and the exception that escaped construction, if any. -/
def ProxyMgr.init (a : InitArgs) (env : Env) : ProxyMgr × Option PyErr :=
  let s0 := initState a
  let step1 : ProxyMgr × Option PyErr :=
    if s0.reuse = true then
      match ProxyMgr.connect_cntrlr s0 env.reuseConnect with
      | (s1, some PyErr.socketError) =>
          if a.exit_on_reuse_fail then (s1, some PyErr.runtimeReuse)
          else ({ s1 with reuse := false }, none)
      | (s1, some e) => (s1, some e)
      | (s1, none) => (s1, none)
    else (s0, none)
  match step1 with
  | (s1, some e) => (s1, some e)
  | (s1, none) =>
    if s1.reuse = false then
      let r := ProxyMgr.start env.launches 0 s1 10
      match r.error with
      | some e => (r.state, some e)
      | none => ProxyMgr.connect_cntrlr r.state env.postConnect
    else (s1, none)

/-- Result of executing a `with ProxyMgr(...) as p: <body>` block: the final
attribute state reached, how many times `stop()` was invoked, how many
`kill()` calls those performed, and the exception escaping the whole block. -/
structure WithResult where
  state : ProxyMgr
  stops : Nat
  kills : Nat
  error : Option PyErr
  deriving DecidableEq

/-- Python `with ProxyMgr(...) as p: <body>` using `__enter__`/`__exit__`
(tor.py lines 176-180). Python evaluates `ProxyMgr(...)` first; if `__init__`
raises, `__enter__` and `__exit__` are never invoked and `stop()` is never
called. If construction succeeds, `__exit__` runs `self.stop()` exactly once
on both the normal and the raising exit of the body (`bodyErr`); an exception
raised inside `__exit__` supersedes the body's. -/
def withProxyMgr (a : InitArgs) (env : Env) (bodyErr : Option PyErr) : WithResult :=
  match ProxyMgr.init a env with
  | (s, some e) => { state := s, stops := 0, kills := 0, error := some e }
  | (s, none) =>
    match ProxyMgr.stop s with
    | (s2, k, stopErr) =>
      { state := s2, stops := 1, kills := k,
        error := match stopErr with
                 | some e2 => some e2
                 | none => bodyErr }

/-- An operation performed on an already-constructed `ProxyMgr` object during
its lifetime: a call to `connect_cntrlr` (with the outcome of its two external
steps) or a call to `stop`. -/
inductive Op where
  | connect (o : ConnectOutcome)
  | stopOp
  deriving DecidableEq

/-- Run a sequence of lifetime operations on a `ProxyMgr` state, keeping only
the attribute state (exceptions and kill counts of the individual calls are
not needed for the invariant). -/
def runOps (s : ProxyMgr) (ops : List Op) : ProxyMgr :=
  match ops with
  | [] => s
  | Op.connect o :: rest => runOps (ProxyMgr.connect_cntrlr s o).1 rest
  | Op.stopOp :: rest => runOps (ProxyMgr.stop s).1 rest

/-- An operation whose `connect_cntrlr` call got past `Controller.from_port`
(so the assignment `self.cntrlr = ...` on tor.py line 99 executed), whether or
not the subsequent `authenticate` succeeded. -/
def connAssigned : Op → Bool
  | Op.connect ConnectOutcome.refused => false
  | Op.connect _ => true
  | Op.stopOp => false

theorem start_step_success (env : Nat → LaunchOutcome) (attempt : Nat) (s : ProxyMgr)
    (retries : Nat) (h0 : env attempt = LaunchOutcome.success) :
    ProxyMgr.start env attempt s retries =
      { state := { s with process := some (torConf s) }, error := none, attempts := 1 } := by
  rw [ProxyMgr.start.eq_def, h0]

theorem start_step_bind (env : Nat → LaunchOutcome) (attempt : Nat) (s : ProxyMgr) (r : Nat)
    (h0 : env attempt = LaunchOutcome.oserr ErrSig.bindFail) (hretry : s.retry = true) :
    ProxyMgr.start env attempt s (r + 1) =
      { ProxyMgr.start env (attempt + 1) s.bump_ports r with
        attempts := (ProxyMgr.start env (attempt + 1) s.bump_ports r).attempts + 1 } := by
  rw [ProxyMgr.start.eq_def, h0]
  simp [hretry]

theorem start_step_exhausted (env : Nat → LaunchOutcome) (attempt : Nat) (s : ProxyMgr)
    (sig : ErrSig) (h0 : env attempt = LaunchOutcome.oserr sig)
    (hsig : sig ≠ ErrSig.brokenConf) :
    ProxyMgr.start env attempt s 0 =
      { state := s, error := some PyErr.runtimeRetries, attempts := 1 } := by
  rw [ProxyMgr.start.eq_def, h0]
  simp [hsig]

theorem start_step_other (env : Nat → LaunchOutcome) (attempt : Nat) (s : ProxyMgr)
    (r : Nat) (c : Nat) (h0 : env attempt = LaunchOutcome.oserr (ErrSig.other c)) :
    ProxyMgr.start env attempt s (r + 1) =
      { state := s, error := some (PyErr.osError (ErrSig.other c)), attempts := 1 } := by
  rw [ProxyMgr.start.eq_def, h0]
  simp

theorem start_conflicts_then_success (env : Nat → LaunchOutcome) :
    ∀ (k retries attempt : Nat) (s : ProxyMgr), k ≤ retries → s.retry = true →
    (∀ i, i < k → env (attempt + i) = LaunchOutcome.oserr ErrSig.bindFail) →
    env (attempt + k) = LaunchOutcome.success →
    (ProxyMgr.start env attempt s retries).error = none ∧
    (ProxyMgr.start env attempt s retries).state.socks_port = s.socks_port + 2 * k ∧
    (ProxyMgr.start env attempt s retries).state.cntrl_port = s.cntrl_port + 2 * k ∧
    (ProxyMgr.start env attempt s retries).state.reuse = s.reuse ∧
    (ProxyMgr.start env attempt s retries).state.process.isSome = true ∧
    (ProxyMgr.start env attempt s retries).attempts = k + 1 := by
  intro k
  induction k with
  | zero =>
    intro retries attempt s _ _ _ hsucc
    have h0 : env attempt = LaunchOutcome.success := by simpa using hsucc
    rw [start_step_success env attempt s retries h0]
    simp
  | succ k ih =>
    intro retries attempt s hk hretry hconf hsucc
    have h0 : env attempt = LaunchOutcome.oserr ErrSig.bindFail := by
      simpa using hconf 0 (Nat.succ_pos k)
    obtain ⟨r, rfl⟩ : ∃ r, retries = r + 1 := ⟨retries - 1, by omega⟩
    obtain ⟨he, hs, hc, hre, hp, ha⟩ := ih r (attempt + 1) s.bump_ports (by omega) hretry
      (fun i hi => by
        have h1 := hconf (i + 1) (by omega)
        have h2 : attempt + 1 + i = attempt + (i + 1) := by omega
        rw [h2]; exact h1)
      (by
        have h2 : attempt + 1 + k = attempt + (k + 1) := by omega
        rw [h2]; exact hsucc)
    rw [start_step_bind env attempt s r h0 hretry]
    have hbs : s.bump_ports.socks_port = s.socks_port + 2 := rfl
    have hbc : s.bump_ports.cntrl_port = s.cntrl_port + 2 := rfl
    refine ⟨he, ?_, ?_, hre, hp, ?_⟩
    · show (ProxyMgr.start env (attempt + 1) s.bump_ports r).state.socks_port =
        s.socks_port + 2 * (k + 1)
      omega
    · show (ProxyMgr.start env (attempt + 1) s.bump_ports r).state.cntrl_port =
        s.cntrl_port + 2 * (k + 1)
      omega
    · show (ProxyMgr.start env (attempt + 1) s.bump_ports r).attempts + 1 = k + 1 + 1
      omega

theorem start_all_bind_conflicts (env : Nat → LaunchOutcome) :
    ∀ (retries attempt : Nat) (s : ProxyMgr), s.retry = true →
    (∀ i, i ≤ retries → env (attempt + i) = LaunchOutcome.oserr ErrSig.bindFail) →
    (ProxyMgr.start env attempt s retries).error = some PyErr.runtimeRetries ∧
    (ProxyMgr.start env attempt s retries).state.process = s.process ∧
    (ProxyMgr.start env attempt s retries).attempts = retries + 1 := by
  intro retries
  induction retries with
  | zero =>
    intro attempt s _ hconf
    have h0 : env attempt = LaunchOutcome.oserr ErrSig.bindFail := by
      simpa using hconf 0 (Nat.le_refl 0)
    rw [start_step_exhausted env attempt s ErrSig.bindFail h0 (by simp)]
    simp
  | succ r ih =>
    intro attempt s hretry hconf
    have h0 : env attempt = LaunchOutcome.oserr ErrSig.bindFail := by
      simpa using hconf 0 (by omega)
    obtain ⟨he, hp, ha⟩ := ih (attempt + 1) s.bump_ports hretry
      (fun i hi => by
        have h1 := hconf (i + 1) (by omega)
        have h2 : attempt + 1 + i = attempt + (i + 1) := by omega
        rw [h2]; exact h1)
    rw [start_step_bind env attempt s r h0 hretry]
    refine ⟨he, hp, ?_⟩
    show (ProxyMgr.start env (attempt + 1) s.bump_ports r).attempts + 1 = r + 1 + 1
    omega

theorem init_not_reuse (a : InitArgs) (env : Env) (hreuse : a.reuse = false) :
    ProxyMgr.init a env =
      match (ProxyMgr.start env.launches 0 (initState a) 10).error with
      | some e => ((ProxyMgr.start env.launches 0 (initState a) 10).state, some e)
      | none =>
          ProxyMgr.connect_cntrlr (ProxyMgr.start env.launches 0 (initState a) 10).state
            env.postConnect := by
  simp [ProxyMgr.init, initState, hreuse]

/-- Claim C1: for every k with k ≤ the retry budget (default 10), if
construction spawns (reuse not in effect) and exactly k consecutive
bind-conflict launch failures occur before a successful launch, then
construction succeeds and the final socks_port equals the initial
socks_port + 2k and the final cntrl_port equals the initial cntrl_port + 2k. -/
theorem C1_bind_conflict_retry_ports (a : InitArgs) (env : Env) (k : Nat)
    (hk : k ≤ 10) (hreuse : a.reuse = false) (hretry : a.retry = true)
    (hconf : ∀ i, i < k → env.launches i = LaunchOutcome.oserr ErrSig.bindFail)
    (hsucc : env.launches k = LaunchOutcome.success)
    (hpost : env.postConnect = ConnectOutcome.ok) :
    (ProxyMgr.init a env).2 = none ∧
    (ProxyMgr.init a env).1.socks_port = a.socks_port + 2 * k ∧
    (ProxyMgr.init a env).1.cntrl_port = a.cntrl_port + 2 * k := by
  obtain ⟨he, hs, hc, _, _, _⟩ := start_conflicts_then_success env.launches k 10 0 (initState a)
    hk (by simp [initState, hretry])
    (fun i hi => by simpa using hconf i hi)
    (by simpa using hsucc)
  rw [init_not_reuse a env hreuse, he, hpost]
  simp only [ProxyMgr.connect_cntrlr]
  exact ⟨trivial, hs, hc⟩

/-- Claim C2: if bind-conflict launch failures occur more than the retry
budget (10) times in one construction attempt, construction fails with the
max-retries RuntimeError and the process field remains None. -/
theorem C2_retries_exhausted (a : InitArgs) (env : Env)
    (hreuse : a.reuse = false) (hretry : a.retry = true)
    (hconf : ∀ i, i ≤ 10 → env.launches i = LaunchOutcome.oserr ErrSig.bindFail) :
    (ProxyMgr.init a env).2 = some PyErr.runtimeRetries ∧
    (ProxyMgr.init a env).1.process = none := by
  obtain ⟨he, hp, _⟩ := start_all_bind_conflicts env.launches 10 0 (initState a)
    (by simp [initState, hretry])
    (fun i hi => by simpa using hconf i hi)
  rw [init_not_reuse a env hreuse, he]
  exact ⟨rfl, hp⟩

/-- Claim C9: start makes at most retries + 1 launch attempts, for every
retry budget, every starting state and every sequence of launch outcomes. -/
theorem C9_start_attempts_bounded (env : Nat → LaunchOutcome) (attempt : Nat) (s : ProxyMgr)
    (retries : Nat) : (ProxyMgr.start env attempt s retries).attempts ≤ retries + 1 := by
  induction retries generalizing attempt s with
  | zero =>
    rcases h : env attempt with _ | sig
    · rw [start_step_success env attempt s 0 h]
    · by_cases hb : sig = ErrSig.brokenConf
      · subst hb
        rw [ProxyMgr.start.eq_def, h]
        simp
      · rw [start_step_exhausted env attempt s sig h hb]
  | succ r ih =>
    rcases h : env attempt with _ | sig
    · rw [start_step_success env attempt s (r + 1) h]
      simp
    · by_cases hc : sig = ErrSig.bindFail ∧ s.retry = true
      · obtain ⟨rfl, hretry⟩ := hc
        rw [start_step_bind env attempt s r h hretry]
        have hrec := ih (attempt + 1) s.bump_ports
        show (ProxyMgr.start env (attempt + 1) s.bump_ports r).attempts + 1 ≤ r + 1 + 1
        omega
      · rw [ProxyMgr.start.eq_def, h]
        simp only [if_neg hc]
        split <;> simp

def C1env : Env :=
  { reuseConnect := ConnectOutcome.ok,
    launches := fun i =>
      if i < 3 then LaunchOutcome.oserr ErrSig.bindFail else LaunchOutcome.success,
    postConnect := ConnectOutcome.ok }

theorem C1_bind_conflict_retry_ports_witness :
    (3 ≤ 10) ∧ ({} : InitArgs).reuse = false ∧ ({} : InitArgs).retry = true ∧
    (∀ i, i < 3 → C1env.launches i = LaunchOutcome.oserr ErrSig.bindFail) ∧
    C1env.launches 3 = LaunchOutcome.success ∧
    C1env.postConnect = ConnectOutcome.ok ∧
    ((ProxyMgr.init {} C1env).2 = none ∧
     (ProxyMgr.init {} C1env).1.socks_port = ({} : InitArgs).socks_port + 2 * 3 ∧
     (ProxyMgr.init {} C1env).1.cntrl_port = ({} : InitArgs).cntrl_port + 2 * 3) :=
  ⟨by omega, rfl, rfl, by decide, by decide, rfl,
   C1_bind_conflict_retry_ports {} C1env 3 (by omega) rfl rfl (by decide) (by decide) rfl⟩

def C2env : Env :=
  { reuseConnect := ConnectOutcome.ok,
    launches := fun _ => LaunchOutcome.oserr ErrSig.bindFail,
    postConnect := ConnectOutcome.ok }

theorem C2_retries_exhausted_witness :
    ({} : InitArgs).reuse = false ∧ ({} : InitArgs).retry = true ∧
    (∀ i, i ≤ 10 → C2env.launches i = LaunchOutcome.oserr ErrSig.bindFail) ∧
    ((ProxyMgr.init {} C2env).2 = some PyErr.runtimeRetries ∧
     (ProxyMgr.init {} C2env).1.process = none) :=
  ⟨rfl, rfl, by decide, C2_retries_exhausted {} C2env rfl rfl (by decide)⟩

/-- Claim C7: if reuse is requested, the control-channel connection is refused
(nothing listening), and exit_on_reuse_fail is true, then construction fails
with the reuse RuntimeError and no daemon process is ever spawned: the final
state is exactly the freshly initialised attribute state, whose process field
is None. -/
theorem C7_strict_reuse_fails (a : InitArgs) (env : Env)
    (hreuse : a.reuse = true) (hexit : a.exit_on_reuse_fail = true)
    (hrefused : env.reuseConnect = ConnectOutcome.refused) :
    ProxyMgr.init a env = (initState a, some PyErr.runtimeReuse) ∧
    (initState a).process = none := by
  constructor
  · simp [ProxyMgr.init, initState, ProxyMgr.connect_cntrlr, hreuse, hexit, hrefused]
  · rfl

def C7args : InitArgs := { reuse := true, exit_on_reuse_fail := true }

def C7env : Env :=
  { reuseConnect := ConnectOutcome.refused,
    launches := fun _ => LaunchOutcome.success,
    postConnect := ConnectOutcome.ok }

theorem C7_strict_reuse_fails_witness :
    C7args.reuse = true ∧ C7args.exit_on_reuse_fail = true ∧
    C7env.reuseConnect = ConnectOutcome.refused ∧
    (ProxyMgr.init C7args C7env = (initState C7args, some PyErr.runtimeReuse) ∧
     (initState C7args).process = none) :=
  ⟨rfl, rfl, rfl, C7_strict_reuse_fails C7args C7env rfl rfl rfl⟩

/-- Claim C5 counterexample: with remaining retry budget zero, a launch
failure that is neither a bind conflict nor the broken-configuration
signature is NOT propagated unchanged: the `elif retries == 0` branch
(tor.py line 152) catches it first and start raises the max-retries
RuntimeError instead of the original OSError. -/
theorem C5_counterexample :
    (ProxyMgr.start (fun _ => LaunchOutcome.oserr (ErrSig.other 0)) 0 (initState {}) 0).error
        = some PyErr.runtimeRetries ∧
    (ProxyMgr.start (fun _ => LaunchOutcome.oserr (ErrSig.other 0)) 0 (initState {}) 0).error
        ≠ some (PyErr.osError (ErrSig.other 0)) := by
  decide

/-- Claim C5 amended: for every POSITIVE remaining retry budget, a launch
failure whose error signature is neither a bind conflict nor the
broken-configuration signature is propagated unchanged, as the original
OSError; at remaining budget zero the code instead raises the max-retries
RuntimeError (see the counterexample). -/
theorem C5_other_error_propagates (env : Nat → LaunchOutcome) (attempt : Nat) (s : ProxyMgr)
    (r c : Nat) (h0 : env attempt = LaunchOutcome.oserr (ErrSig.other c)) :
    ProxyMgr.start env attempt s (r + 1) =
      { state := s, error := some (PyErr.osError (ErrSig.other c)), attempts := 1 } :=
  start_step_other env attempt s r c h0

theorem C5_other_error_propagates_witness :
    ((fun _ => LaunchOutcome.oserr (ErrSig.other 7)) 0 = LaunchOutcome.oserr (ErrSig.other 7)) ∧
    ProxyMgr.start (fun _ => LaunchOutcome.oserr (ErrSig.other 7)) 0 (initState {}) 1 =
      { state := initState {}, error := some (PyErr.osError (ErrSig.other 7)), attempts := 1 } :=
  ⟨rfl, C5_other_error_propagates (fun _ => LaunchOutcome.oserr (ErrSig.other 7)) 0
    (initState {}) 0 7 rfl⟩

theorem stop_state_id (s : ProxyMgr) : (ProxyMgr.stop s).1 = s := by
  unfold ProxyMgr.stop
  split
  · split <;> rfl
  · rfl

theorem runOps_cntrlr_isSome (ops : List Op) :
    ∀ s : ProxyMgr, s.cntrlr.isSome = true → (runOps s ops).cntrlr.isSome = true := by
  induction ops with
  | nil => intro s h; exact h
  | cons op rest ih =>
    intro s h
    cases op with
    | connect o =>
      cases o with
      | refused => exact ih _ h
      | authRejected =>
        simp only [runOps, ProxyMgr.connect_cntrlr]
        exact ih _ (by simp)
      | ok =>
        simp only [runOps, ProxyMgr.connect_cntrlr]
        exact ih _ (by simp)
    | stopOp =>
      simp only [runOps, stop_state_id]
      exact ih s h

def C3env : Env :=
  { reuseConnect := ConnectOutcome.ok,
    launches := fun _ => LaunchOutcome.success,
    postConnect := ConnectOutcome.ok }

/-- Claim C3 counterexample: construct successfully (authentication succeeded,
so cntrlr was assigned), then call stop(); the claim says that after stop()
returns the control session is absent, but stop (tor.py lines 161-174) never
clears cntrlr, so it is still present. -/
theorem C3_counterexample :
    (ProxyMgr.init {} C3env).2 = none ∧
    (ProxyMgr.stop (ProxyMgr.init {} C3env).1).1.cntrlr ≠ none := by
  decide

/-- Claim C3 amended: cntrlr is present if and only if, since construction,
at least one connect_cntrlr call got past the connection step (the assignment
on tor.py line 99 ran) — regardless of whether the subsequent authentication
succeeded, since the assignment precedes authenticate; and stop() never
clears cntrlr, so "since the most recent stop()" does not bound it. -/
theorem C3_cntrlr_iff_connect_assigned (s : ProxyMgr) (ops : List Op)
    (h : s.cntrlr = none) :
    ((runOps s ops).cntrlr.isSome = true) ↔ ops.any connAssigned = true := by
  induction ops generalizing s with
  | nil => simp [runOps, h]
  | cons op rest ih =>
    cases op with
    | connect o =>
      cases o with
      | refused =>
        simp only [runOps, ProxyMgr.connect_cntrlr]
        rw [ih s h]
        simp [connAssigned]
      | authRejected =>
        simp only [runOps, ProxyMgr.connect_cntrlr, List.any_cons]
        have hpers := runOps_cntrlr_isSome rest
          { s with cntrlr := some { port := s.cntrl_port, authed := false } } (by simp)
        simp [connAssigned, hpers]
      | ok =>
        simp only [runOps, ProxyMgr.connect_cntrlr, List.any_cons]
        have hpers := runOps_cntrlr_isSome rest
          { s with cntrlr := some { port := s.cntrl_port, authed := true } } (by simp)
        simp [connAssigned, hpers]
    | stopOp =>
      simp only [runOps, stop_state_id]
      rw [ih s h]
      simp [connAssigned]

theorem C3_cntrlr_iff_connect_assigned_witness :
    (initState {}).cntrlr = none ∧
    (((runOps (initState {}) [Op.connect ConnectOutcome.authRejected, Op.stopOp]).cntrlr.isSome
        = true) ↔
      ([Op.connect ConnectOutcome.authRejected, Op.stopOp].any connAssigned = true)) :=
  ⟨rfl, C3_cntrlr_iff_connect_assigned (initState {})
    [Op.connect ConnectOutcome.authRejected, Op.stopOp] rfl⟩

def C4env : Env :=
  { reuseConnect := ConnectOutcome.ok,
    launches := fun _ => LaunchOutcome.success,
    postConnect := ConnectOutcome.authRejected }

/-- Claim C4 counterexample: in scoped usage, when construction raises after
the daemon process was already spawned (the launch succeeded and the
subsequent authentication failed), Python never runs __enter__/__exit__ for
the `with` statement, so stop() is called zero times, not exactly once. -/
theorem C4_counterexample :
    (withProxyMgr {} C4env none).error = some PyErr.authFailure ∧
    (withProxyMgr {} C4env none).state.process.isSome = true ∧
    (withProxyMgr {} C4env none).stops = 0 := by
  decide

/-- Claim C4 amended: scoped enter/exit usage calls stop() exactly once on
every exit path on which construction succeeded (whether or not the body
raised); when construction itself raises — including after a daemon process
was already spawned — __exit__ never runs and stop() is not called at all. -/
theorem C4_stop_called_iff_constructed (a : InitArgs) (env : Env) (bodyErr : Option PyErr) :
    (withProxyMgr a env bodyErr).stops =
      if (ProxyMgr.init a env).2 = none then 1 else 0 := by
  unfold withProxyMgr
  rcases h : ProxyMgr.init a env with ⟨s, e⟩
  cases e with
  | none =>
    rcases hs : ProxyMgr.stop s with ⟨s2, k, serr⟩
    simp
  | some e1 => simp

def C6state : ProxyMgr := { initState {} with process := some [] }

/-- Claim C6 counterexample: a second stop() call does perform a second kill
of the owned process: with reuse false and an owned process, each of the two
calls invokes Popen.kill once more (and neither call raises). -/
theorem C6_counterexample :
    (ProxyMgr.stop C6state).2.2 = none ∧
    (ProxyMgr.stop (ProxyMgr.stop C6state).1).2.2 = none ∧
    (ProxyMgr.stop (ProxyMgr.stop C6state).1).2.1 = 1 := by
  decide

/-- Claim C6 amended: stop() raises no error on a first and on a repeated
call, and leaves the state unchanged; each call kills the owned process
exactly once when reuse is false — so a second call re-sends the kill rather
than suppressing it — and when reuse is true stop() never attempts any
termination. -/
theorem C6_stop_repeat (s : ProxyMgr)
    (h : s.reuse = true ∨ s.process.isSome = true) :
    ProxyMgr.stop s = (s, (if s.reuse then 0 else 1), none) ∧
    ProxyMgr.stop (ProxyMgr.stop s).1 = (s, (if s.reuse then 0 else 1), none) := by
  have h1 : ProxyMgr.stop s = (s, (if s.reuse then 0 else 1), none) := by
    unfold ProxyMgr.stop
    rcases h with h | h
    · simp [h]
    · rcases hp : s.process with _ | p
      · rw [hp] at h; simp at h
      · cases hr : s.reuse <;> simp [hp, hr]
  refine ⟨h1, ?_⟩
  rw [h1]
  exact h1

theorem C6_stop_repeat_witness :
    (C6state.reuse = true ∨ C6state.process.isSome = true) ∧
    (ProxyMgr.stop C6state = (C6state, (if C6state.reuse then 0 else 1), none) ∧
     ProxyMgr.stop (ProxyMgr.stop C6state).1 =
       (C6state, (if C6state.reuse then 0 else 1), none)) :=
  ⟨Or.inr rfl, C6_stop_repeat C6state (Or.inr rfl)⟩

/-- Python values that can reach the argument expressions of
`TorHttpClient.get` (client.py lines 125-143): `None`, strings, dicts (in
particular the dict collecting the extra keyword arguments `**kwargs`), and
`aiohttp.BasicAuth` objects (a namedtuple of login and password; its encoding
field is omitted as nothing inspects it). -/
inductive PyVal where
  | pynone
  | str (s : String)
  | dict (entries : List (String × PyVal))
  | basicAuth (login passw : String)

/-- Python's binary `**` (pow) operator restricted to the values above. In
Python, `x ** y` is defined only when an operand implements `__pow__` or
`__rpow__`; `None`, `str`, `dict` and `aiohttp.BasicAuth` (a namedtuple)
implement neither, so for every pair of these values `**` raises
`TypeError: unsupported operand type(s)`. -/
def pyPow (a b : PyVal) : Except PyErr PyVal :=
  match a, b with
  | PyVal.pynone, _ => Except.error PyErr.typeError
  | PyVal.str _, _ => Except.error PyErr.typeError
  | PyVal.dict _, _ => Except.error PyErr.typeError
  | PyVal.basicAuth _ _, _ => Except.error PyErr.typeError

/-- One HTTP request dispatched to the underlying aiohttp session
(`self.sess.request`, client.py line 103). -/
structure Request where
  method : String
  url : String
  params : PyVal
  cookies : PyVal
  headers : PyVal
  auth : PyVal

/-- `TorHttpClient.request` (client.py lines 50-123), as invoked from `get`:
forwards its arguments to `self.sess.request`. Returns the list of requests
dispatched (one). -/
def TorHttpClient.request (method url : String) (params cookies headers auth : PyVal) :
    List Request :=
  [{ method := method, url := url, params := params, cookies := cookies,
     headers := headers, auth := auth }]

/-- `TorHttpClient.get` (client.py lines 125-143). Python evaluates the
argument expressions of the `self.request(...)` call before invoking it;
among them is `auth**kwargs` (line 142) — exponentiation of the auth value by
the dict of collected extra keyword arguments. If that evaluation raises, the
exception propagates and `self.request` is never invoked, so nothing is
dispatched. Otherwise the call would forward method "get", url, params,
cookies and headers, with the pow result in the `auth` position (note the
call spells `auth**kwargs`, not `auth, **kwargs`, so the keyword arguments
themselves are never forwarded). Returns the escaping exception or unit, and
the list of dispatched requests. -/
def TorHttpClient.get (url : String) (params cookies headers auth : PyVal)
    (kwargs : List (String × PyVal)) : Except PyErr Unit × List Request :=
  match pyPow auth (PyVal.dict kwargs) with
  | Except.error e => (Except.error e, [])
  | Except.ok v => (Except.ok (), TorHttpClient.request "get" url params cookies headers v)

/-- Claim C10: every call to TorHttpClient.get raises a TypeError before any
HTTP request is dispatched, because it forwards the argument expression
auth**kwargs (exponentiation of the auth value by the kwargs dict), which is
undefined for every auth value including the default None; in particular the
headers, cookies and extra keyword arguments given to get are never passed to
the underlying request (the dispatched-request list is empty). -/
theorem C10_get_always_type_error (url : String) (params cookies headers auth : PyVal)
    (kwargs : List (String × PyVal))
    (hauth : auth = PyVal.pynone ∨ ∃ u p, auth = PyVal.basicAuth u p) :
    TorHttpClient.get url params cookies headers auth kwargs =
      (Except.error PyErr.typeError, []) := by
  rcases hauth with h | ⟨u, p, h⟩ <;> subst h <;> rfl

theorem C10_get_always_type_error_witness :
    (PyVal.pynone = PyVal.pynone ∨ ∃ u p, PyVal.pynone = PyVal.basicAuth u p) ∧
    TorHttpClient.get "http://example.com/" PyVal.pynone PyVal.pynone PyVal.pynone PyVal.pynone
        [("allow_redirects", PyVal.pynone)] = (Except.error PyErr.typeError, []) :=
  ⟨Or.inl rfl, C10_get_always_type_error "http://example.com/" PyVal.pynone PyVal.pynone
    PyVal.pynone PyVal.pynone [("allow_redirects", PyVal.pynone)] (Or.inl rfl)⟩
